import Mathlib

/-!
Shallow embedding of the reward decision service (src/src/reward_logic.py,
src/src/config.py, src/src/models.py, src/src/persona.py, src/src/cache.py).

Modelling conventions:
- Python floats are modelled as rationals; Python int() conversion is
  truncation toward zero (ratTrunc below).
- The key-value cache is an association list with last-write-wins lookup.
  TTL arguments to cache.set only matter when wall-clock time advances
  between operations; the model fixes a single instant (Env.now), so TTL
  values are dropped.  Cache keys use four disjoint key shapes of the
  engine, modelled as an inductive type.
- Python hash(user_id) is process-seed dependent; it is modelled as an
  environment parameter pyHash : String -> Int.  Python percent on a
  positive modulus returns a value in [0, modulus), which is Int.emod.
- uuid.uuid4() is modelled by a fresh-name counter in the engine state.
- At an idempotency cache hit the stored value is always a serialized
  decision (only decide writes that key); the model stores structured
  values, so deserialization is the identity on the decision payload.
-/

namespace Reward

/-- Python int() applied to a float: truncation toward zero. -/
def ratTrunc (q : ℚ) : ℤ := if 0 ≤ q then ⌊q⌋ else ⌈q⌉

/-- PersonaType enum from src/src/models.py. -/
inductive Persona
  | NEW
  | RETURNING
  | POWER
deriving DecidableEq

/-- RewardType enum from src/src/models.py. -/
inductive RewardType
  | XP
  | CHECKOUT
  | GOLD
deriving DecidableEq

/-- Cache key shapes used by the engine: idem:{txn}:{user}:{merchant},
persona:{user}, cac:{user}:{date}, last_reward:{user}. -/
inductive Key
  | idem (txnId userId merchantId : String)
  | personaKey (userId : String)
  | cacSpend (userId : String) (date : String)
  | lastReward (userId : String)
deriving DecidableEq

/-- The meta dict of a decision (fixed key set, src/src/reward_logic.py lines 54-60). -/
structure DecisionMeta where
  persona : Persona
  multiplier : ℚ
  txnId : String
  userId : String
  merchantId : String
deriving DecidableEq

/-- Data fields of RewardDecisionResponse from src/src/models.py.  The
pydantic field constraints reward_value ge=0 and xp ge=0 (models.py lines
43-44) are enforced at construction time in Python; they are modelled by
validateResponse below, applied where the Python code constructs the model
(see decideChecked). -/
structure RewardDecisionResponse where
  decisionId : String
  policyVersion : String
  rewardType : RewardType
  rewardValue : ℤ
  xp : ℤ
  reasonCodes : List String
  meta : DecisionMeta
deriving DecidableEq

/-- UserPersona from src/src/models.py. -/
structure UserPersona where
  userId : String
  persona : Persona
  lifetimePurchases : ℤ
  lastRewardTs : Option ℤ
deriving DecidableEq

/-- Values stored in the cache by the engine. -/
inductive CacheVal
  | num (q : ℚ)
  | int (n : ℤ)
  | decision (d : RewardDecisionResponse)
  | personaRec (p : UserPersona)
deriving DecidableEq

/-- The key-value cache contents (src/src/cache.py InMemoryCache at one instant). -/
abbrev Cache := List (Key × CacheVal)

/-- cache.get: first binding wins (cacheSet shadows older bindings). -/
def cacheGet : Cache → Key → Option CacheVal
  | [], _ => none
  | (k, v) :: rest, key => if k = key then some v else cacheGet rest key

/-- cache.set with last-write-wins semantics (TTL dropped, see header). -/
def cacheSet (c : Cache) (k : Key) (v : CacheVal) : Cache := (k, v) :: c

/-- PolicyConfig accessor-level view (src/src/config.py).  The weight map
keeps the configured (insertion) order of the reward_types dict. -/
structure PolicyConfig where
  version : String
  rewardTypeWeights : List (String × ℚ)
  xpPerRupee : ℚ
  maxXpPerTxn : ℤ
  personaMultipliers : Persona → ℚ
  dailyCapPerPersona : Persona → ℤ
  cacFallbackToXp : Bool
  preferXpMode : Bool
  cooldownEnabled : Bool
  cooldownHours : ℤ

/-- The built-in default policy (src/src/config.py _default_config). -/
def defaultPolicyConfig : PolicyConfig where
  version := "v1.0.0"
  rewardTypeWeights := [("XP", 7/10), ("CHECKOUT", 2/10), ("GOLD", 1/10)]
  xpPerRupee := 1/10
  maxXpPerTxn := 500
  personaMultipliers := fun p =>
    match p with
    | Persona.NEW => 1
    | Persona.RETURNING => 3/2
    | Persona.POWER => 2
  dailyCapPerPersona := fun p =>
    match p with
    | Persona.NEW => 0
    | Persona.RETURNING => 1000
    | Persona.POWER => 5000
  cacFallbackToXp := true
  preferXpMode := false
  cooldownEnabled := false
  cooldownHours := 24

/-- Settings (src/src/config.py); only the idempotency switch is observable
in the single-instant model (the TTL settings are dropped with the TTLs). -/
structure Settings where
  enableIdempotency : Bool
deriving DecidableEq

/-- One entry of the personas dataset file (src/src/persona.py _load_personas). -/
structure PersonaData where
  persona : Persona
  lifetimePurchases : ℤ
  lastRewardTs : Option ℤ
deriving DecidableEq

/-- Ambient process state that the engine reads but never writes:
the Python hash seed, the wall clock, the personas file and the config. -/
structure Env where
  pyHash : String → ℤ
  now : ℤ
  today : String
  personasData : List (String × PersonaData)
  settings : Settings
  cfg : PolicyConfig

/-- RewardDecisionRequest from src/src/models.py (field constraint
amount > 0 is checked by validateRequest below). -/
structure RewardDecisionRequest where
  txnId : String
  userId : String
  merchantId : String
  amount : ℚ
  txnType : String
  ts : Option ℤ
deriving DecidableEq

/-- Mutable engine-visible state: the shared cache and the uuid source. -/
structure EngineState where
  cache : Cache
  nextUuid : ℕ
deriving DecidableEq

/-- _build_idempotency_key (src/src/reward_logic.py lines 77-80). -/
def idemKey (req : RewardDecisionRequest) : Key :=
  Key.idem req.txnId req.userId req.merchantId

/-- _calculate_xp (src/src/reward_logic.py lines 82-89):
int(amount * xp_per_rupee * multiplier) capped above by max_xp. -/
def calculateXp (cfg : PolicyConfig) (amount : ℚ) (persona : Persona) : ℤ :=
  min (ratTrunc (amount * cfg.xpPerRupee * cfg.personaMultipliers persona)) cfg.maxXpPerTxn

/-- _get_daily_cac_spend (lines 140-146): cached or 0.0. -/
def getDailyCacSpend (env : Env) (userId : String) (c : Cache) : ℚ :=
  match cacheGet c (Key.cacSpend userId env.today) with
  | some (CacheVal.num q) => q
  | _ => 0

/-- _update_daily_cac_spend (lines 148-158): plain read-then-write. -/
def updateDailyCacSpend (env : Env) (userId : String) (amount : ℚ) (c : Cache) : Cache :=
  cacheSet c (Key.cacSpend userId env.today)
    (CacheVal.num (getDailyCacSpend env userId c + amount))

/-- _is_in_cooldown (lines 160-172). -/
def isInCooldown (env : Env) (userId : String) (c : Cache) : Bool :=
  match cacheGet c (Key.lastReward userId) with
  | some (CacheVal.int ts) => env.now - ts < env.cfg.cooldownHours * 3600
  | _ => false

/-- _update_last_reward (lines 174-183).  Python `ts or int(now)` treats
both None and 0 as absent. -/
def updateLastReward (env : Env) (userId : String) (ts : Option ℤ) (c : Cache) : Cache :=
  let timestamp : ℤ :=
    match ts with
    | some t => if t = 0 then env.now else t
    | none => env.now
  cacheSet c (Key.lastReward userId) (CacheVal.int timestamp)

/-- Payout of a winning weight-map entry (lines 131-136):
CHECKOUT pays int(amount * 0.05), GOLD pays int(amount * 0.02), else XP 0. -/
def payout (name : String) (amount : ℚ) : RewardType × ℤ :=
  if name = "CHECKOUT" then (RewardType.CHECKOUT, ratTrunc (amount * (5/100)))
  else if name = "GOLD" then (RewardType.GOLD, ratTrunc (amount * (2/100)))
  else (RewardType.XP, 0)

/-- The weighted-selection loop of _determine_reward (lines 125-138):
cumulative += int(weight * 100); first entry with seed < cumulative wins. -/
def selectRewardAux (seed : ℤ) (amount : ℚ) : List (String × ℚ) → ℤ → RewardType × ℤ
  | [], _ => (RewardType.XP, 0)
  | (name, weight) :: rest, cumulative =>
    let cumulative := cumulative + ratTrunc (weight * 100)
    if seed < cumulative then payout name amount
    else selectRewardAux seed amount rest cumulative

/-- Weighted selection entry point with cumulative = 0. -/
def selectReward (seed : ℤ) (weights : List (String × ℚ)) (amount : ℚ) : RewardType × ℤ :=
  selectRewardAux seed amount weights 0

/-- seed = hash(user_id) % 100 (line 125); Python percent on modulus 100 is Int.emod. -/
def seedOf (env : Env) (userId : String) : ℤ :=
  (env.pyHash userId).emod 100

/-- _determine_reward after the daily-cap block (lines 112-138). -/
def determineRewardBase (env : Env) (userId : String) (amount : ℚ) (c : Cache) :
    RewardType × ℤ :=
  if env.cfg.preferXpMode then (RewardType.XP, 0)
  else if env.cfg.cooldownEnabled && isInCooldown env userId c then (RewardType.XP, 0)
  else selectReward (seedOf env userId) env.cfg.rewardTypeWeights amount

/-- _determine_reward (lines 91-138).  The daily-cap block only runs when
daily_cap > 0; both fallback branches return (XP, 0). -/
def determineReward (env : Env) (userId : String) (persona : Persona) (amount : ℚ)
    (c : Cache) : RewardType × ℤ :=
  let dailyCap := env.cfg.dailyCapPerPersona persona
  if 0 < dailyCap then
    let dailySpend := getDailyCacSpend env userId c
    if (dailyCap : ℚ) < dailySpend + amount then
      if env.cfg.cacFallbackToXp then (RewardType.XP, 0) else (RewardType.XP, 0)
    else determineRewardBase env userId amount c
  else determineRewardBase env userId amount c

/-- _get_reason_codes (lines 185-209). -/
def getReasonCodes (cfg : PolicyConfig) (persona : Persona) (rewardType : RewardType) :
    List String :=
  (match persona with
    | Persona.NEW => ["NEW_USER"]
    | Persona.RETURNING => ["RETURNING_USER"]
    | Persona.POWER => ["POWER_USER"]) ++
  (match rewardType with
    | RewardType.XP => ["XP_MODE_ENABLED"]
    | RewardType.CHECKOUT => ["CHECKOUT_REWARD"]
    | RewardType.GOLD => ["GOLD_REWARD"]) ++
  (if cfg.preferXpMode then ["PREFER_XP_MODE"] else []) ++
  (if cfg.cooldownEnabled then ["COOLDOWN_POLICY_ENABLED"] else [])

/-- The default record used when a user is in neither the cache nor
the dataset (src/src/persona.py lines 52-58). -/
def defaultUserPersona (userId : String) : UserPersona :=
  { userId := userId, persona := Persona.NEW, lifetimePurchases := 0, lastRewardTs := none }

/-- get_persona (src/src/persona.py lines 35-67): cache hit returns the
cached record unchanged; otherwise dataset lookup or default NEW, then
write-back to the persona cache. -/
def getPersona (env : Env) (c : Cache) (userId : String) : UserPersona × Cache :=
  match cacheGet c (Key.personaKey userId) with
  | some (CacheVal.personaRec p) => (p, c)
  | _ =>
    let p : UserPersona :=
      match List.lookup userId env.personasData with
      | some pd =>
        { userId := userId, persona := pd.persona,
          lifetimePurchases := pd.lifetimePurchases, lastRewardTs := pd.lastRewardTs }
      | none => defaultUserPersona userId
    (p, cacheSet c (Key.personaKey userId) (CacheVal.personaRec p))

/-- The fresh-computation path of decide (src/src/reward_logic.py lines 32-75):
persona resolution, XP, reward determination, assembly, idempotency write,
last-reward write.  This is the raw computation; the pydantic constraint
check that Python performs while constructing RewardDecisionResponse at
line 47 is modelled on top of it by decideFreshChecked, which interposes
validateResponse between the assembly and the subsequent writes. -/
def decideFresh (env : Env) (req : RewardDecisionRequest) (st : EngineState) :
    RewardDecisionResponse × EngineState :=
  let pr := getPersona env st.cache req.userId
  let personaRec := pr.1
  let cache1 := pr.2
  let xp := calculateXp env.cfg req.amount personaRec.persona
  let rv := determineReward env req.userId personaRec.persona req.amount cache1
  let decision : RewardDecisionResponse :=
    { decisionId := "uuid-" ++ toString st.nextUuid
      policyVersion := env.cfg.version
      rewardType := rv.1
      rewardValue := rv.2
      xp := xp
      reasonCodes := getReasonCodes env.cfg personaRec.persona rv.1
      meta :=
        { persona := personaRec.persona
          multiplier := env.cfg.personaMultipliers personaRec.persona
          txnId := req.txnId
          userId := req.userId
          merchantId := req.merchantId } }
  let cache2 :=
    if env.settings.enableIdempotency then
      cacheSet cache1 (idemKey req) (CacheVal.decision decision)
    else cache1
  let cache3 := updateLastReward env req.userId req.ts cache2
  (decision, { cache := cache3, nextUuid := st.nextUuid + 1 })

/-- decide (src/src/reward_logic.py lines 23-75): idempotency replay on a
cache hit, otherwise the fresh path. -/
def decide (env : Env) (req : RewardDecisionRequest) (st : EngineState) :
    RewardDecisionResponse × EngineState :=
  if env.settings.enableIdempotency then
    match cacheGet st.cache (idemKey req) with
    | some (CacheVal.decision d) => (d, st)
    | _ => decideFresh env req st
  else decideFresh env req st

/-- Error taxonomy visible at the decide boundary. -/
inductive RewardServiceError
  | validationError
deriving DecidableEq

/-- Pydantic request validation (src/src/models.py line 21: amount gt=0). -/
def validateRequest (req : RewardDecisionRequest) :
    Except RewardServiceError RewardDecisionRequest :=
  if 0 < req.amount then Except.ok req
  else Except.error RewardServiceError.validationError

/-- The decide operation as seen past request validation. -/
def decideValidated (env : Env) (req : RewardDecisionRequest) (st : EngineState) :
    Except RewardServiceError (RewardDecisionResponse × EngineState) :=
  match validateRequest req with
  | Except.ok r => Except.ok (decide env r st)
  | Except.error e => Except.error e

/-- Pydantic validation of the response-model fields (src/src/models.py lines
43-44: reward_value ge=0 and xp ge=0): constructing a RewardDecisionResponse
with a negative value raises ValidationError; on success the constructed
object is returned unchanged. -/
def validateResponse (d : RewardDecisionResponse) :
    Except RewardServiceError RewardDecisionResponse :=
  if 0 ≤ d.rewardValue ∧ 0 ≤ d.xp then Except.ok d
  else Except.error RewardServiceError.validationError

/-- The fresh path with the response-model construction check: the assembled
decision (the first component of decideFresh, computed before any of the
fresh-path writes) is validated where Python constructs the model
(reward_logic.py line 47); only on success do the idempotency and
last-reward writes of decideFresh happen and the decision is returned.  On
failure the exception propagates to the caller (main.py answers 500) and no
decision is returned; the Except value carries no post-error cache state
because the raising call returns nothing to its caller. -/
def decideFreshChecked (env : Env) (req : RewardDecisionRequest) (st : EngineState) :
    Except RewardServiceError (RewardDecisionResponse × EngineState) :=
  match validateResponse (decideFresh env req st).1 with
  | Except.ok _ => Except.ok (decideFresh env req st)
  | Except.error e => Except.error e

/-- decide with the pydantic response-model construction modelled on both
paths: the replay path also constructs RewardDecisionResponse from the
stored payload (reward_logic.py line 30), so it passes through the same
field validation; the fresh path is decideFreshChecked. -/
def decideChecked (env : Env) (req : RewardDecisionRequest) (st : EngineState) :
    Except RewardServiceError (RewardDecisionResponse × EngineState) :=
  if env.settings.enableIdempotency then
    match cacheGet st.cache (idemKey req) with
    | some (CacheVal.decision d) =>
      match validateResponse d with
      | Except.ok dv => Except.ok (dv, st)
      | Except.error e => Except.error e
    | _ => decideFreshChecked env req st
  else decideFreshChecked env req st

/-- Modelled from the spec wording (Step 3): floor of the XP product clamped
to the interval [0, maxXpPerTransaction]; for comparison with calculateXp. -/
def xpSpecClamped (cfg : PolicyConfig) (amount : ℚ) (persona : Persona) : ℤ :=
  min (max ⌊amount * cfg.xpPerRupee * cfg.personaMultipliers persona⌋ 0) cfg.maxXpPerTxn

/-- Modelled from the spec wording (Step 4d payouts): a winning entry pays
floor(amount × 0.05) for CHECKOUT and floor(amount × 0.02) for GOLD. -/
def specPayout (name : String) (amount : ℚ) : RewardType × ℤ :=
  if name = "CHECKOUT" then (RewardType.CHECKOUT, ⌊amount * (5/100)⌋)
  else if name = "GOLD" then (RewardType.GOLD, ⌊amount * (2/100)⌋)
  else (RewardType.XP, 0)

/-- Cumulative sums of the truncated percentage weights, in configured order. -/
def truncCumulative : List (String × ℚ) → List ℤ
  | [] => []
  | (_, w) :: rest =>
    ratTrunc (w * 100) :: (truncCumulative rest).map (· + ratTrunc (w * 100))

/-- Independent formulation of the selection rule with truncated weights:
the first entry whose cumulative truncated percentage exceeds the seed wins. -/
def selectRewardSpecTrunc (seed : ℤ) (weights : List (String × ℚ)) (amount : ℚ) :
    RewardType × ℤ :=
  match (weights.zip (truncCumulative weights)).find?
      (fun x => Decidable.decide (seed < x.2)) with
  | some x => specPayout x.1.1 amount
  | none => (RewardType.XP, 0)

/-- Modelled from the spec wording (Step 4d): the claimed selection loop with
cumulative += round(weight × 100); for comparison with selectReward. -/
def selectRewardSpecRoundAux (seed : ℤ) (amount : ℚ) :
    List (String × ℚ) → ℤ → RewardType × ℤ
  | [], _ => (RewardType.XP, 0)
  | (name, weight) :: rest, cumulative =>
    let cumulative := cumulative + round (weight * 100)
    if seed < cumulative then specPayout name amount
    else selectRewardSpecRoundAux seed amount rest cumulative

/-- Spec-worded selection entry point with cumulative = 0. -/
def selectRewardSpecRound (seed : ℤ) (weights : List (String × ℚ)) (amount : ℚ) :
    RewardType × ℤ :=
  selectRewardSpecRoundAux seed amount weights 0

/-- A call is fresh when idempotency is off or the idempotency key misses. -/
def freshCall (env : Env) (req : RewardDecisionRequest) (st : EngineState) : Prop :=
  env.settings.enableIdempotency = false ∨ cacheGet st.cache (idemKey req) = none

/-- The invariant a decision must satisfy: XP decisions carry no money. -/
def decisionInv (d : RewardDecisionResponse) : Prop :=
  d.rewardType = RewardType.XP → d.rewardValue = 0

/-- Every decision stored anywhere in the cache satisfies decisionInv. -/
def cacheDecisionInv (c : Cache) : Prop :=
  ∀ k d, cacheGet c k = some (CacheVal.decision d) → decisionInv d

/-- The empty engine state. -/
def st0 : EngineState := { cache := [], nextUuid := 0 }

/-- Default-policy environment whose hash function sends every user to seed 0
(idempotency enabled, fixed clock and date, empty personas dataset). -/
def envDefault : Env where
  pyHash := fun _ => 0
  now := 1700000000
  today := "2026-01-15"
  personasData := []
  settings := { enableIdempotency := true }
  cfg := defaultPolicyConfig

/-- Default-policy environment whose hash function sends every user to seed 75
(the CHECKOUT band of the default weights). -/
def envSeed75 : Env := { envDefault with pyHash := fun _ => 75 }

/-- A 1000-unit purchase request by a user absent from the personas dataset. -/
def reqThousand : RewardDecisionRequest where
  txnId := "txn_1"
  userId := "new_user"
  merchantId := "m_1"
  amount := 1000
  txnType := "purchase"
  ts := none

/-- A 100-unit request (idempotency witness, first call). -/
def reqA : RewardDecisionRequest :=
  { reqThousand with txnId := "txn_a", userId := "u_1", amount := 100 }

/-- Same transaction coordinates as reqA with a different amount. -/
def reqB : RewardDecisionRequest := { reqA with amount := 5000 }

/-- A second fresh transaction by the same user as reqA, larger amount. -/
def reqC : RewardDecisionRequest := { reqA with txnId := "txn_c", amount := 5000 }

/-- reqA with an explicit zero timestamp. -/
def reqTs0 : RewardDecisionRequest := { reqA with txnId := "txn_0", ts := some 0 }

/-- reqA with a non-positive amount (fails request validation). -/
def reqNeg : RewardDecisionRequest := { reqA with amount := -5 }

/-- A weight map with the single entry CHECKOUT at weight 0.159, where
round(0.159 × 100) = 16 but int(0.159 × 100) = 15. -/
def cfgWeight159 : PolicyConfig :=
  { defaultPolicyConfig with rewardTypeWeights := [("CHECKOUT", 159/1000)] }

/-- cfgWeight159 environment whose hash function sends every user to seed 15. -/
def envSeed15 : Env := { envDefault with pyHash := fun _ => 15, cfg := cfgWeight159 }

/-- A cache carrying a daily spend of 900 for user u_s on envDefault.today. -/
def cacheSpend900 : Cache := [(Key.cacSpend "u_s" "2026-01-15", CacheVal.num 900)]

/-- envDefault with the cap-fallback flag set to b. -/
def envWithFallback (b : Bool) : Env :=
  { envDefault with cfg := { defaultPolicyConfig with cacFallbackToXp := b } }

section CacheLemmas

theorem cacheGet_cacheSet_same (c : Cache) (k : Key) (v : CacheVal) :
    cacheGet (cacheSet c k v) k = some v := by
  simp [cacheGet, cacheSet]

theorem cacheGet_cacheSet_ne (c : Cache) {k k' : Key} (v : CacheVal) (h : k ≠ k') :
    cacheGet (cacheSet c k v) k' = cacheGet c k' := by
  simp [cacheGet, cacheSet, h]

theorem getPersona_snd_frame (env : Env) (c : Cache) (u : String) {k : Key}
    (h : ∀ x, k ≠ Key.personaKey x) :
    cacheGet (getPersona env c u).2 k = cacheGet c k := by
  unfold getPersona
  cases hv : cacheGet c (Key.personaKey u) with
  | none => simp [cacheGet_cacheSet_ne _ _ (fun he => h u he.symm)]
  | some v =>
    cases v <;> simp [cacheGet_cacheSet_ne _ _ (fun he => h u he.symm)]

theorem updateLastReward_frame (env : Env) (u : String) (ts : Option ℤ) (c : Cache)
    {k : Key} (h : ∀ x, k ≠ Key.lastReward x) :
    cacheGet (updateLastReward env u ts c) k = cacheGet c k := by
  unfold updateLastReward
  exact cacheGet_cacheSet_ne _ _ (fun he => h u he.symm)

end CacheLemmas

section EngineLemmas

theorem decide_of_freshCall {env : Env} {req : RewardDecisionRequest} {st : EngineState}
    (h : freshCall env req st) : decide env req st = decideFresh env req st := by
  unfold decide
  rcases h with h | h
  · simp [h]
  · cases he : env.settings.enableIdempotency
    · simp
    · simp [h]

theorem decideFresh_rewardType (env : Env) (req : RewardDecisionRequest) (st : EngineState) :
    (decideFresh env req st).1.rewardType =
      (determineReward env req.userId (getPersona env st.cache req.userId).1.persona
        req.amount (getPersona env st.cache req.userId).2).1 := rfl

theorem decideFresh_xp (env : Env) (req : RewardDecisionRequest) (st : EngineState) :
    (decideFresh env req st).1.xp =
      calculateXp env.cfg req.amount (getPersona env st.cache req.userId).1.persona := rfl

theorem decideFresh_cache (env : Env) (req : RewardDecisionRequest) (st : EngineState) :
    (decideFresh env req st).2.cache =
      updateLastReward env req.userId req.ts
        (if env.settings.enableIdempotency then
          cacheSet (getPersona env st.cache req.userId).2 (idemKey req)
            (CacheVal.decision (decideFresh env req st).1)
        else (getPersona env st.cache req.userId).2) := rfl

theorem decideFresh_frame {env : Env} {req : RewardDecisionRequest} {st : EngineState}
    {k : Key} (h1 : ∀ x, k ≠ Key.personaKey x) (h2 : ∀ a b c, k ≠ Key.idem a b c)
    (h3 : ∀ x, k ≠ Key.lastReward x) :
    cacheGet (decideFresh env req st).2.cache k = cacheGet st.cache k := by
  rw [decideFresh_cache, updateLastReward_frame _ _ _ _ h3]
  cases he : env.settings.enableIdempotency
  · rw [if_neg (by simp [he]), getPersona_snd_frame _ _ _ h1]
  · rw [if_pos (by simp [he]),
      cacheGet_cacheSet_ne (k := idemKey req) _ _
        (fun hk => h2 req.txnId req.userId req.merchantId hk.symm),
      getPersona_snd_frame _ _ _ h1]

theorem decideFresh_idem_hit {env : Env} {req : RewardDecisionRequest} {st : EngineState}
    (henb : env.settings.enableIdempotency = true) :
    cacheGet (decideFresh env req st).2.cache (idemKey req) =
      some (CacheVal.decision (decideFresh env req st).1) := by
  rw [decideFresh_cache,
    updateLastReward_frame _ _ _ _ (fun x hk => Key.noConfusion hk),
    if_pos henb, cacheGet_cacheSet_same]

theorem decide_frame {env : Env} {req : RewardDecisionRequest} {st : EngineState}
    {k : Key} (h1 : ∀ x, k ≠ Key.personaKey x) (h2 : ∀ a b c, k ≠ Key.idem a b c)
    (h3 : ∀ x, k ≠ Key.lastReward x) :
    cacheGet (decide env req st).2.cache k = cacheGet st.cache k := by
  unfold decide
  cases he : env.settings.enableIdempotency
  · exact decideFresh_frame h1 h2 h3
  · cases hv : cacheGet st.cache (idemKey req) with
    | none => exact decideFresh_frame h1 h2 h3
    | some v =>
      cases v with
      | decision d => rfl
      | num q => exact decideFresh_frame h1 h2 h3
      | int n => exact decideFresh_frame h1 h2 h3
      | personaRec p => exact decideFresh_frame h1 h2 h3

end EngineLemmas

section ClaimC2

/-- C2: with idempotency enabled, a second decide with the same
(txnId, userId, merchantId) — any amount — returns exactly the decision of
the first call (same decisionId, rewardType, rewardValue, xp, everything)
and leaves the state untouched: no recomputation, no cache writes. -/
theorem decide_replay_returns_stored {env : Env} {req1 req2 : RewardDecisionRequest}
    {st : EngineState} (henb : env.settings.enableIdempotency = true)
    (ht : req2.txnId = req1.txnId) (hu : req2.userId = req1.userId)
    (hm : req2.merchantId = req1.merchantId) :
    decide env req2 (decide env req1 st).2 = ((decide env req1 st).1, (decide env req1 st).2) := by
  have hkey : idemKey req2 = idemKey req1 := by simp [idemKey, ht, hu, hm]
  by_cases h1 : ∃ d, cacheGet st.cache (idemKey req1) = some (CacheVal.decision d)
  · rcases h1 with ⟨d, hd⟩
    have e1 : decide env req1 st = (d, st) := by simp [decide, henb, hd]
    rw [e1]
    simp [decide, henb, hkey, hd]
  · have e1 : decide env req1 st = decideFresh env req1 st := by
      unfold decide
      rw [henb]
      cases hv : cacheGet st.cache (idemKey req1) with
      | none => simp
      | some v =>
        cases v with
        | decision d => exact absurd ⟨d, hv⟩ h1
        | num q => simp
        | int n => simp
        | personaRec p => simp
    rw [e1]
    have hhit := @decideFresh_idem_hit env req1 st henb
    simp [decide, henb, hkey, hhit]

/-- C2 witness: the concrete replay of reqA by reqB (amount 100 then 5000). -/
theorem decide_replay_returns_stored_witness :
    decide envDefault reqB (decide envDefault reqA st0).2 =
      ((decide envDefault reqA st0).1, (decide envDefault reqA st0).2) :=
  decide_replay_returns_stored rfl rfl rfl rfl

end ClaimC2

section ClaimC9

/-- C9: decide never touches any daily-spend key cac:{userId}:{date} — the
cache restricted to those keys is identical before and after — while the
separate _update_daily_cac_spend operation is what writes the current-day
spend key for its user. -/
theorem decide_preserves_cacSpend :
    (∀ (env : Env) (req : RewardDecisionRequest) (st : EngineState) (u d : String),
      cacheGet (decide env req st).2.cache (Key.cacSpend u d) =
        cacheGet st.cache (Key.cacSpend u d)) ∧
    (∀ (env : Env) (u : String) (amount : ℚ) (c : Cache),
      cacheGet (updateDailyCacSpend env u amount c) (Key.cacSpend u env.today) =
        some (CacheVal.num (getDailyCacSpend env u c + amount))) := by
  constructor
  · intro env req st u d
    exact decide_frame (fun x hk => Key.noConfusion hk) (fun a b c hk => Key.noConfusion hk)
      (fun x hk => Key.noConfusion hk)
  · intro env u amount c
    unfold updateDailyCacSpend
    exact cacheGet_cacheSet_same _ _ _

end ClaimC9

section ClaimC10

/-- C10: every fresh (non-replayed) decide call writes last_reward:{userId},
storing the request timestamp when it is present and non-zero and the current
time otherwise (Python `ts or now` treats the explicit timestamp 0 as
absent); the write happens on every fresh path, including cap-exceeded and
prefer-XP decisions, since no configuration hypothesis is needed. -/
theorem decide_writes_lastReward {env : Env} {req : RewardDecisionRequest}
    {st : EngineState} (hfresh : freshCall env req st) :
    cacheGet (decide env req st).2.cache (Key.lastReward req.userId) =
      some (CacheVal.int
        (match req.ts with
         | some t => if t = 0 then env.now else t
         | none => env.now)) := by
  rw [decide_of_freshCall hfresh, decideFresh_cache]
  unfold updateLastReward
  rw [cacheGet_cacheSet_same]

/-- C10 witness: a fresh request carrying the explicit timestamp 0 stores the
current clock value, not 0. -/
theorem decide_writes_lastReward_witness :
    cacheGet (decide envDefault reqTs0 st0).2.cache (Key.lastReward reqTs0.userId) =
      some (CacheVal.int 1700000000) :=
  decide_writes_lastReward (Or.inr rfl)

end ClaimC10

section ClaimC5

/-- Helper: the concrete cap-exceeded arithmetic for the C5 instance. -/
theorem spend900_exceeds_cap :
    ((envDefault.cfg.dailyCapPerPersona Persona.RETURNING : ℤ) : ℚ) <
      getDailyCacSpend envDefault "u_s" cacheSpend900 + 200 := by
  norm_num [envDefault, defaultPolicyConfig, getDailyCacSpend, cacheSpend900, cacheGet]

/-- C5: whenever the daily cap check fires (cap > 0 and spend + amount over
the cap), _determine_reward returns (XP, 0) for either value of the
fallbackToXpOnCapExceeded flag — the two branches are extensionally equal,
so the flag has no observable effect. -/
theorem capExceeded_flag_no_effect {env : Env} {u : String} {p : Persona} {amount : ℚ}
    {c : Cache} (b : Bool) (hcap : 0 < env.cfg.dailyCapPerPersona p)
    (hspend : ((env.cfg.dailyCapPerPersona p : ℤ) : ℚ) < getDailyCacSpend env u c + amount) :
    determineReward { env with cfg := { env.cfg with cacFallbackToXp := b } } u p amount c =
      (RewardType.XP, 0) := by
  unfold determineReward
  dsimp only
  rw [if_pos hcap]
  rw [show getDailyCacSpend { env with cfg := { env.cfg with cacFallbackToXp := b } } u c =
        getDailyCacSpend env u c from rfl]
  rw [if_pos hspend]
  cases b <;> rfl

/-- C5 witness: persona RETURNING (cap 1000), recorded spend 900, amount 200,
evaluated with the flag set to true and to false. -/
theorem capExceeded_flag_no_effect_witness :
    0 < envDefault.cfg.dailyCapPerPersona Persona.RETURNING ∧
    determineReward (envWithFallback true) "u_s" Persona.RETURNING 200 cacheSpend900 =
      (RewardType.XP, 0) ∧
    determineReward (envWithFallback false) "u_s" Persona.RETURNING 200 cacheSpend900 =
      (RewardType.XP, 0) :=
  ⟨by decide, capExceeded_flag_no_effect true (by decide) spend900_exceeds_cap,
    capExceeded_flag_no_effect false (by decide) spend900_exceeds_cap⟩

end ClaimC5

section ClaimC6

theorem payout_inv (name : String) (amount : ℚ) :
    (payout name amount).1 = RewardType.XP → (payout name amount).2 = 0 := by
  unfold payout
  by_cases h1 : name = "CHECKOUT"
  · simp [h1]
  · by_cases h2 : name = "GOLD" <;> simp [h1, h2]

theorem selectRewardAux_inv (seed : ℤ) (amount : ℚ) :
    ∀ (ws : List (String × ℚ)) (acc : ℤ),
      (selectRewardAux seed amount ws acc).1 = RewardType.XP →
      (selectRewardAux seed amount ws acc).2 = 0 := by
  intro ws
  induction ws with
  | nil => intro acc h; rfl
  | cons hd tl ih =>
    intro acc
    obtain ⟨name, weight⟩ := hd
    unfold selectRewardAux
    dsimp only
    by_cases hlt : seed < acc + ratTrunc (weight * 100)
    · rw [if_pos hlt]; exact payout_inv name amount
    · rw [if_neg hlt]; exact ih _

theorem determineReward_inv (env : Env) (u : String) (p : Persona) (amount : ℚ)
    (c : Cache) :
    (determineReward env u p amount c).1 = RewardType.XP →
    (determineReward env u p amount c).2 = 0 := by
  unfold determineReward determineRewardBase selectReward
  dsimp only
  split_ifs <;> first
    | (intro _; rfl)
    | exact selectRewardAux_inv _ _ _ _

theorem decideFresh_decisionInv (env : Env) (req : RewardDecisionRequest)
    (st : EngineState) : decisionInv (decideFresh env req st).1 :=
  fun hx => determineReward_inv _ _ _ _ _ hx

theorem cacheDecisionInv_set {c : Cache} {k : Key} {v : CacheVal}
    (hc : cacheDecisionInv c) (hv : ∀ d, v = CacheVal.decision d → decisionInv d) :
    cacheDecisionInv (cacheSet c k v) := by
  intro k' d hk
  unfold cacheSet cacheGet at hk
  by_cases he : k = k'
  · rw [if_pos he] at hk
    exact hv d (Option.some.inj hk)
  · rw [if_neg he] at hk
    exact hc k' d hk

theorem cacheDecisionInv_getPersona {env : Env} {c : Cache} {u : String}
    (hc : cacheDecisionInv c) : cacheDecisionInv (getPersona env c u).2 := by
  unfold getPersona
  cases hv : cacheGet c (Key.personaKey u) with
  | none =>
    dsimp only
    exact cacheDecisionInv_set hc (fun d hd => CacheVal.noConfusion hd)
  | some v =>
    cases v with
    | decision d => exact cacheDecisionInv_set hc (fun d hd => CacheVal.noConfusion hd)
    | num q => exact cacheDecisionInv_set hc (fun d hd => CacheVal.noConfusion hd)
    | int n => exact cacheDecisionInv_set hc (fun d hd => CacheVal.noConfusion hd)
    | personaRec p => exact hc

theorem decideFresh_cacheDecisionInv {env : Env} {req : RewardDecisionRequest}
    {st : EngineState} (h : cacheDecisionInv st.cache) :
    cacheDecisionInv (decideFresh env req st).2.cache := by
  rw [decideFresh_cache]
  unfold updateLastReward
  apply cacheDecisionInv_set
  · cases he : env.settings.enableIdempotency
    · rw [if_neg (by simp [he])]
      exact cacheDecisionInv_getPersona h
    · rw [if_pos (by simp [he])]
      apply cacheDecisionInv_set (cacheDecisionInv_getPersona h)
      intro d hd
      have hfd : (decideFresh env req st).1 = d := by
        injection hd
      exact hfd ▸ decideFresh_decisionInv env req st
  · exact fun d hd => CacheVal.noConfusion hd

/-- C6: assuming every decision already stored in the cache satisfies the
invariant, every decision returned by decide (fresh or replayed) with
rewardType XP has rewardValue 0, and the invariant still holds for every
decision stored afterwards. -/
theorem decide_xp_implies_zero_value {env : Env} {req : RewardDecisionRequest}
    {st : EngineState} (h : cacheDecisionInv st.cache) :
    decisionInv (decide env req st).1 ∧ cacheDecisionInv (decide env req st).2.cache := by
  unfold decide
  cases he : env.settings.enableIdempotency
  · exact ⟨decideFresh_decisionInv env req st, decideFresh_cacheDecisionInv h⟩
  · cases hv : cacheGet st.cache (idemKey req) with
    | none => exact ⟨decideFresh_decisionInv env req st, decideFresh_cacheDecisionInv h⟩
    | some v =>
      cases v with
      | decision d => exact ⟨h _ _ hv, h⟩
      | num q => exact ⟨decideFresh_decisionInv env req st, decideFresh_cacheDecisionInv h⟩
      | int n => exact ⟨decideFresh_decisionInv env req st, decideFresh_cacheDecisionInv h⟩
      | personaRec p =>
        exact ⟨decideFresh_decisionInv env req st, decideFresh_cacheDecisionInv h⟩

/-- C6 witness: the empty cache satisfies the invariant and so does the
decision on reqThousand together with the resulting cache. -/
theorem decide_xp_implies_zero_value_witness :
    cacheDecisionInv st0.cache ∧
    (decisionInv (decide envDefault reqThousand st0).1 ∧
      cacheDecisionInv (decide envDefault reqThousand st0).2.cache) :=
  ⟨(fun _ _ hk => nomatch hk), decide_xp_implies_zero_value (fun _ _ hk => nomatch hk)⟩

end ClaimC6

section ClaimC7

theorem payout_fst_amount (name : String) (a1 a2 : ℚ) :
    (payout name a1).1 = (payout name a2).1 := by
  unfold payout
  split_ifs <;> rfl

theorem selectRewardAux_fst_amount (seed : ℤ) (a1 a2 : ℚ) :
    ∀ (ws : List (String × ℚ)) (acc : ℤ),
      (selectRewardAux seed a1 ws acc).1 = (selectRewardAux seed a2 ws acc).1 := by
  intro ws
  induction ws with
  | nil => intro acc; rfl
  | cons hd tl ih =>
    intro acc
    obtain ⟨name, weight⟩ := hd
    unfold selectRewardAux
    dsimp only
    by_cases hlt : seed < acc + ratTrunc (weight * 100)
    · rw [if_pos hlt, if_pos hlt]
      exact payout_fst_amount name a1 a2
    · rw [if_neg hlt, if_neg hlt]
      exact ih _

theorem selectReward_fst_amount (seed : ℤ) (ws : List (String × ℚ)) (a1 a2 : ℚ) :
    (selectReward seed ws a1).1 = (selectReward seed ws a2).1 :=
  selectRewardAux_fst_amount seed a1 a2 ws 0

theorem getPersona_snd_personaKey (env : Env) (c : Cache) (u : String) :
    cacheGet (getPersona env c u).2 (Key.personaKey u) =
      some (CacheVal.personaRec (getPersona env c u).1) := by
  unfold getPersona
  cases hv : cacheGet c (Key.personaKey u) with
  | none => dsimp only; exact cacheGet_cacheSet_same _ _ _
  | some v =>
    cases v with
    | decision d => dsimp only; exact cacheGet_cacheSet_same _ _ _
    | num q => dsimp only; exact cacheGet_cacheSet_same _ _ _
    | int n => dsimp only; exact cacheGet_cacheSet_same _ _ _
    | personaRec p => exact hv

theorem getPersona_of_cached {env : Env} {c : Cache} {u : String} {P : UserPersona}
    (hv : cacheGet c (Key.personaKey u) = some (CacheVal.personaRec P)) :
    getPersona env c u = (P, c) := by
  unfold getPersona
  rw [hv]

theorem decideFresh_persona_cached (env : Env) (req : RewardDecisionRequest)
    (st : EngineState) :
    cacheGet (decideFresh env req st).2.cache (Key.personaKey req.userId) =
      some (CacheVal.personaRec (getPersona env st.cache req.userId).1) := by
  rw [decideFresh_cache, updateLastReward_frame _ _ _ _ (fun x hk => Key.noConfusion hk)]
  cases he : env.settings.enableIdempotency
  · rw [if_neg (by simp [he])]
    exact getPersona_snd_personaKey env st.cache req.userId
  · rw [if_pos (by simp [he]),
      cacheGet_cacheSet_ne (k := idemKey req) _ _ (fun hk => Key.noConfusion hk)]
    exact getPersona_snd_personaKey env st.cache req.userId

theorem getDailyCacSpend_getPersona (env : Env) (u u' : String) (c : Cache) :
    getDailyCacSpend env u (getPersona env c u').2 = getDailyCacSpend env u c := by
  unfold getDailyCacSpend
  rw [getPersona_snd_frame _ _ _ (fun x hk => Key.noConfusion hk)]

theorem getDailyCacSpend_decideFresh (env : Env) (u : String)
    (req : RewardDecisionRequest) (st : EngineState) :
    getDailyCacSpend env u (decideFresh env req st).2.cache =
      getDailyCacSpend env u st.cache := by
  unfold getDailyCacSpend
  rw [decideFresh_frame (fun x hk => Key.noConfusion hk)
    (fun a b c hk => Key.noConfusion hk) (fun x hk => Key.noConfusion hk)]

theorem determineReward_no_triggers {env : Env} {u : String} {p : Persona}
    {amount : ℚ} {c : Cache}
    (hcap : ¬(0 < env.cfg.dailyCapPerPersona p ∧
      ((env.cfg.dailyCapPerPersona p : ℤ) : ℚ) < getDailyCacSpend env u c + amount))
    (hpref : env.cfg.preferXpMode = false)
    (hcool : env.cfg.cooldownEnabled = false) :
    determineReward env u p amount c =
      selectReward (seedOf env u) env.cfg.rewardTypeWeights amount := by
  have hbase : determineRewardBase env u amount c =
      selectReward (seedOf env u) env.cfg.rewardTypeWeights amount := by
    unfold determineRewardBase
    rw [if_neg (by simp [hpref]), if_neg (by simp [hcool])]
  unfold determineReward
  dsimp only
  by_cases h1 : 0 < env.cfg.dailyCapPerPersona p
  · rw [if_pos h1, if_neg (fun hx => hcap ⟨h1, hx⟩)]
    exact hbase
  · rw [if_neg h1]
    exact hbase

/-- C7: two fresh decide calls by the same user under the same environment,
differing in amount (and transaction coordinates), produce the same
rewardType, provided prefer-XP mode is off, cooldown is off, and the daily
cap does not fire for either amount: selection depends only on the hash of
the user and the configured weights. -/
theorem decide_rewardType_amount_independent {env : Env}
    {req1 req2 : RewardDecisionRequest} {st : EngineState}
    (hu : req2.userId = req1.userId)
    (hf1 : freshCall env req1 st)
    (hf2 : freshCall env req2 (decide env req1 st).2)
    (hpref : env.cfg.preferXpMode = false)
    (hcool : env.cfg.cooldownEnabled = false)
    (hcap1 : ¬(0 < env.cfg.dailyCapPerPersona (getPersona env st.cache req1.userId).1.persona ∧
      ((env.cfg.dailyCapPerPersona (getPersona env st.cache req1.userId).1.persona : ℤ) : ℚ) <
        getDailyCacSpend env req1.userId st.cache + req1.amount))
    (hcap2 : ¬(0 < env.cfg.dailyCapPerPersona (getPersona env st.cache req1.userId).1.persona ∧
      ((env.cfg.dailyCapPerPersona (getPersona env st.cache req1.userId).1.persona : ℤ) : ℚ) <
        getDailyCacSpend env req1.userId st.cache + req2.amount)) :
    (decide env req2 (decide env req1 st).2).1.rewardType =
      (decide env req1 st).1.rewardType := by
  have e1 : decide env req1 st = decideFresh env req1 st := decide_of_freshCall hf1
  rw [e1] at hf2 ⊢
  rw [decide_of_freshCall hf2]
  have hpc : cacheGet (decideFresh env req1 st).2.cache (Key.personaKey req2.userId) =
      some (CacheVal.personaRec (getPersona env st.cache req1.userId).1) := by
    rw [hu]
    exact decideFresh_persona_cached env req1 st
  have hgp2 : getPersona env (decideFresh env req1 st).2.cache req2.userId =
      ((getPersona env st.cache req1.userId).1, (decideFresh env req1 st).2.cache) :=
    getPersona_of_cached hpc
  rw [decideFresh_rewardType, decideFresh_rewardType, hgp2]
  have hs2 : getDailyCacSpend env req2.userId (decideFresh env req1 st).2.cache =
      getDailyCacSpend env req1.userId st.cache := by
    rw [hu]
    exact getDailyCacSpend_decideFresh env req1.userId req1 st
  have hs1 : getDailyCacSpend env req1.userId (getPersona env st.cache req1.userId).2 =
      getDailyCacSpend env req1.userId st.cache :=
    getDailyCacSpend_getPersona env req1.userId req1.userId st.cache
  rw [determineReward_no_triggers (by rw [hs2]; exact hcap2) hpref hcool,
    determineReward_no_triggers (by rw [hs1]; exact hcap1) hpref hcool, hu]
  exact selectReward_fst_amount _ _ req2.amount req1.amount

/-- C7 witness: reqA (amount 100) and reqC (amount 5000) by the same user,
fresh calls under the default policy. -/
theorem decide_rewardType_amount_independent_witness :
    (decide envDefault reqC (decide envDefault reqA st0).2).1.rewardType =
      (decide envDefault reqA st0).1.rewardType :=
  decide_rewardType_amount_independent rfl (Or.inr rfl) (Or.inr (by decide))
    rfl rfl (by decide) (by decide)

end ClaimC7

section ClaimC4

theorem payout_eq_specPayout {amount : ℚ} (h : 0 < amount) (name : String) :
    payout name amount = specPayout name amount := by
  unfold payout specPayout
  have h5 : ratTrunc (amount * (5/100)) = ⌊amount * (5/100)⌋ :=
    if_pos (mul_nonneg h.le (by norm_num))
  have h2 : ratTrunc (amount * (2/100)) = ⌊amount * (2/100)⌋ :=
    if_pos (mul_nonneg h.le (by norm_num))
  split_ifs <;> first
    | rw [h5]
    | rw [h2]
    | rfl

theorem find?_zip_map_add (s t : ℤ) (ws : List (String × ℚ)) (l : List ℤ) :
    (ws.zip (l.map (· + t))).find? (fun x => Decidable.decide (s < x.2)) =
      Option.map (Prod.map id (· + t))
        ((ws.zip l).find? (fun x => Decidable.decide (s - t < x.2))) := by
  rw [List.zip_map_right, List.find?_map]
  have hfun : ((fun (x : (String × ℚ) × ℤ) => Decidable.decide (s < x.2)) ∘
      Prod.map id (· + t)) = (fun x => Decidable.decide (s - t < x.2)) := by
    funext x
    simp only [Function.comp_apply, Prod.map_snd]
    exact decide_eq_decide.mpr (by omega)
  rw [hfun]

theorem selectRewardAux_eq_find (seed : ℤ) (amount : ℚ) :
    ∀ (ws : List (String × ℚ)) (acc : ℤ),
      selectRewardAux seed amount ws acc =
        match (ws.zip (truncCumulative ws)).find?
            (fun x => Decidable.decide (seed - acc < x.2)) with
        | some x => payout x.1.1 amount
        | none => (RewardType.XP, 0) := by
  intro ws
  induction ws with
  | nil => intro acc; rfl
  | cons hd tl ih =>
    intro acc
    obtain ⟨name, weight⟩ := hd
    unfold selectRewardAux truncCumulative
    dsimp only
    rw [List.zip_cons_cons]
    by_cases hx : seed < acc + ratTrunc (weight * 100)
    · rw [if_pos hx,
        List.find?_cons_of_pos
          (p := fun (x : (String × ℚ) × ℤ) => Decidable.decide (seed - acc < x.2)) _
          (decide_eq_true (show seed - acc < ratTrunc (weight * 100) by omega))]
    · rw [if_neg hx,
        List.find?_cons_of_neg
          (p := fun (x : (String × ℚ) × ℤ) => Decidable.decide (seed - acc < x.2)) _
          (by simp only [decide_eq_true_eq]; omega)]
      rw [find?_zip_map_add, ih (acc + ratTrunc (weight * 100))]
      have hfun : (fun (x : (String × ℚ) × ℤ) =>
          Decidable.decide (seed - (acc + ratTrunc (weight * 100)) < x.2)) =
          (fun x => Decidable.decide (seed - acc - ratTrunc (weight * 100) < x.2)) := by
        funext x
        exact decide_eq_decide.mpr (by constructor <;> (intro hz; omega))
      rw [hfun]
      cases hf : (tl.zip (truncCumulative tl)).find?
          (fun x => Decidable.decide (seed - acc - ratTrunc (weight * 100) < x.2)) with
      | none => rfl
      | some x => rfl

theorem selectReward_eq_specTrunc {seed : ℤ} {ws : List (String × ℚ)} {amount : ℚ}
    (h : 0 < amount) :
    selectReward seed ws amount = selectRewardSpecTrunc seed ws amount := by
  rw [selectReward, selectRewardAux_eq_find]
  unfold selectRewardSpecTrunc
  have hfun : (fun (x : (String × ℚ) × ℤ) => Decidable.decide (seed - 0 < x.2)) =
      (fun x => Decidable.decide (seed < x.2)) := by
    funext x
    exact decide_eq_decide.mpr (by constructor <;> (intro hz; omega))
  rw [hfun]
  cases hf : (ws.zip (truncCumulative ws)).find? (fun x => Decidable.decide (seed < x.2)) with
  | none => rfl
  | some x => exact payout_eq_specPayout h x.1.1

/-- C4 amended: when no cap, prefer-XP or cooldown rule applies and the
amount is positive, _determine_reward performs the weighted selection in the
configured order with cumulative thresholds int(weight × 100) — truncation
toward zero, not rounding — the first entry with seed < cumulative winning,
(XP, 0) as the default, and the floor payouts of the claim. -/
theorem determineReward_eq_specTrunc {env : Env} {u : String} {p : Persona}
    {amount : ℚ} {c : Cache} (hamt : 0 < amount)
    (hcap : ¬(0 < env.cfg.dailyCapPerPersona p ∧
      ((env.cfg.dailyCapPerPersona p : ℤ) : ℚ) < getDailyCacSpend env u c + amount))
    (hpref : env.cfg.preferXpMode = false)
    (hcool : env.cfg.cooldownEnabled = false) :
    determineReward env u p amount c =
      selectRewardSpecTrunc (seedOf env u) env.cfg.rewardTypeWeights amount := by
  rw [determineReward_no_triggers hcap hpref hcool]
  exact selectReward_eq_specTrunc hamt

/-- C4 amended witness: the default NEW-persona path at amount 100. -/
theorem determineReward_eq_specTrunc_witness :
    determineReward envDefault "u_1" Persona.NEW 100 [] =
      selectRewardSpecTrunc (seedOf envDefault "u_1")
        envDefault.cfg.rewardTypeWeights 100 :=
  determineReward_eq_specTrunc (by decide) (by decide) rfl rfl

/-- C4 counterexample: with the single weight CHECKOUT 0.159 and seed 15 the
code (truncation: threshold 15) selects nothing and returns (XP, 0), while
the claimed round-based accumulation (threshold 16) would select CHECKOUT
and pay floor(100 × 0.05) = 5. -/
theorem selection_trunc_round_differ :
    determineReward envSeed15 "u_w" Persona.NEW 100 [] = (RewardType.XP, 0) ∧
    selectRewardSpecRound (seedOf envSeed15 "u_w")
      envSeed15.cfg.rewardTypeWeights 100 = (RewardType.CHECKOUT, 5) := by
  constructor
  · norm_num [determineReward, determineRewardBase, selectReward, selectRewardAux,
      seedOf, envSeed15, envDefault, cfgWeight159, defaultPolicyConfig,
      getDailyCacSpend, cacheGet, isInCooldown, ratTrunc, payout]
  · norm_num [selectRewardSpecRound, selectRewardSpecRoundAux, specPayout, seedOf,
      envSeed15, envDefault, cfgWeight159, defaultPolicyConfig, round_eq]

end ClaimC4

section ClaimC3

theorem decideChecked_of_freshCall {env : Env} {req : RewardDecisionRequest}
    {st : EngineState} (h : freshCall env req st) :
    decideChecked env req st = decideFreshChecked env req st := by
  unfold decideChecked
  rcases h with h | h
  · simp [h]
  · cases he : env.settings.enableIdempotency
    · simp
    · simp [h]

/-- Helper: whenever the computed xp of _calculate_xp is nonnegative — which
is what the response-model validation enforces on every returned decision —
it equals the floor of the XP product clamped to [0, maxXpPerTransaction],
for every policy configuration: the truncation and the floor differ only on
products in (-1, 0), where the truncation gives 0 and the clamp of the floor
gives max(-1, 0) = 0 as well. -/
theorem calculateXp_clamped_of_nonneg {cfg : PolicyConfig} {amount : ℚ} {p : Persona}
    (h : 0 ≤ calculateXp cfg amount p) :
    calculateXp cfg amount p = xpSpecClamped cfg amount p ∧
    0 ≤ calculateXp cfg amount p ∧ calculateXp cfg amount p ≤ cfg.maxXpPerTxn := by
  refine ⟨?_, h, min_le_right _ _⟩
  have h1 : 0 ≤ ratTrunc (amount * cfg.xpPerRupee * cfg.personaMultipliers p) :=
    (le_min_iff.mp h).1
  unfold calculateXp xpSpecClamped
  by_cases hq0 : 0 ≤ amount * cfg.xpPerRupee * cfg.personaMultipliers p
  · rw [show ratTrunc (amount * cfg.xpPerRupee * cfg.personaMultipliers p) =
        ⌊amount * cfg.xpPerRupee * cfg.personaMultipliers p⌋ from if_pos hq0,
      max_eq_left (Int.floor_nonneg.mpr hq0)]
  · have htr0 : ratTrunc (amount * cfg.xpPerRupee * cfg.personaMultipliers p) ≤ 0 := by
      rw [show ratTrunc (amount * cfg.xpPerRupee * cfg.personaMultipliers p) =
          ⌈amount * cfg.xpPerRupee * cfg.personaMultipliers p⌉ from if_neg hq0]
      exact Int.ceil_le.mpr (by exact_mod_cast (lt_of_not_le hq0).le)
    have hfl : ⌊amount * cfg.xpPerRupee * cfg.personaMultipliers p⌋ ≤ 0 :=
      (Int.floor_le_floor (lt_of_not_le hq0).le).trans (le_of_eq Int.floor_zero)
    rw [le_antisymm htr0 h1, max_eq_right hfl]

/-- C3: on every fresh call with amount > 0, whenever the engine returns a
decision at all (the pydantic response model rejects negative reward_value
or xp at construction, models.py lines 43-44), the decision's xp equals
floor(amount × xpPerUnit × personaMultiplier[persona]) clamped to
[0, maxXpPerTransaction] — the code computes it with truncating
(toward-zero) conversion, which coincides with the clamped floor on every
value the validation lets through — and 0 ≤ xp ≤ maxXpPerTransaction holds
for every policy configuration. -/
theorem decide_xp_floor_clamped {env : Env} {req : RewardDecisionRequest}
    {st : EngineState} {d : RewardDecisionResponse} {st2 : EngineState}
    (hfresh : freshCall env req st) (_hamt : 0 < req.amount)
    (hok : decideChecked env req st = Except.ok (d, st2)) :
    d.xp = xpSpecClamped env.cfg req.amount
      (getPersona env st.cache req.userId).1.persona ∧
    0 ≤ d.xp ∧ d.xp ≤ env.cfg.maxXpPerTxn := by
  rw [decideChecked_of_freshCall hfresh] at hok
  unfold decideFreshChecked at hok
  cases hv : validateResponse (decideFresh env req st).1 with
  | error e =>
    rw [hv] at hok
    exact absurd hok (fun hx => Except.noConfusion hx)
  | ok d0 =>
    rw [hv] at hok
    have hpair : decideFresh env req st = (d, st2) := by
      injection hok
    have hd : (decideFresh env req st).1 = d := by rw [hpair]
    have hxp0 : 0 ≤ (decideFresh env req st).1.xp := by
      unfold validateResponse at hv
      by_cases hc : 0 ≤ (decideFresh env req st).1.rewardValue ∧
          0 ≤ (decideFresh env req st).1.xp
      · exact hc.2
      · rw [if_neg hc] at hv
        exact absurd hv (fun hx => Except.noConfusion hx)
    rw [← hd]
    rw [decideFresh_xp] at hxp0 ⊢
    exact calculateXp_clamped_of_nonneg hxp0

/-- Helper: on the concrete reqA run the assembled decision passes the
response-model validation, so the checked decide returns it. -/
theorem decideChecked_envDefault_reqA :
    decideChecked envDefault reqA st0 =
      Except.ok ((decideFresh envDefault reqA st0).1, (decideFresh envDefault reqA st0).2) := by
  have h1 : (decideFresh envDefault reqA st0).1.rewardValue = 0 := by
    norm_num [decideFresh, determineReward, determineRewardBase, selectReward,
      selectRewardAux, payout, seedOf, getPersona, cacheGet, getDailyCacSpend,
      isInCooldown, envDefault, defaultPolicyConfig, defaultUserPersona, reqA,
      reqThousand, st0, ratTrunc]
    decide
  have h2 : (decideFresh envDefault reqA st0).1.xp = 10 := by
    norm_num [decideFresh, calculateXp, getPersona, cacheGet, envDefault,
      defaultPolicyConfig, defaultUserPersona, reqA, reqThousand, st0, ratTrunc]
  have hv : validateResponse (decideFresh envDefault reqA st0).1 =
      Except.ok (decideFresh envDefault reqA st0).1 := by
    unfold validateResponse
    rw [if_pos ⟨le_of_eq h1.symm, by rw [h2]; decide⟩]
  rw [decideChecked_of_freshCall
    (Or.inr (show cacheGet st0.cache (idemKey reqA) = none from rfl))]
  unfold decideFreshChecked
  rw [hv]

/-- C3 witness: the reqA decision under the default policy. -/
theorem decide_xp_floor_clamped_witness :
    (decideFresh envDefault reqA st0).1.xp =
      xpSpecClamped envDefault.cfg reqA.amount
        (getPersona envDefault st0.cache reqA.userId).1.persona ∧
    0 ≤ (decideFresh envDefault reqA st0).1.xp ∧
    (decideFresh envDefault reqA st0).1.xp ≤ envDefault.cfg.maxXpPerTxn :=
  decide_xp_floor_clamped
    (Or.inr (show cacheGet st0.cache (idemKey reqA) = none from rfl))
    (by decide) decideChecked_envDefault_reqA

end ClaimC3

section ClaimC8

/-- C8: decide fails with ValidationError exactly on the requests with
amount ≤ 0 (delivering no decision there), and proceeds past validation to
the engine for every amount > 0. -/
theorem decideValidated_amount_check {env : Env} {req : RewardDecisionRequest}
    {st : EngineState} :
    (req.amount ≤ 0 →
      decideValidated env req st = Except.error RewardServiceError.validationError) ∧
    (0 < req.amount → decideValidated env req st = Except.ok (decide env req st)) := by
  constructor
  · intro h
    unfold decideValidated validateRequest
    rw [if_neg (not_lt.mpr h)]
  · intro h
    unfold decideValidated validateRequest
    rw [if_pos h]

/-- C8 witness: amount -5 is rejected with ValidationError, amount 100 goes
through to the engine. -/
theorem decideValidated_amount_check_witness :
    decideValidated envDefault reqNeg st0 =
      Except.error RewardServiceError.validationError ∧
    decideValidated envDefault reqA st0 = Except.ok (decide envDefault reqA st0) :=
  ⟨decideValidated_amount_check.1 (by decide), decideValidated_amount_check.2 (by decide)⟩

end ClaimC8

section ClaimC1

/-- C1 evaluation at the failing input: under the default policy a user who
resolves to persona NEW (daily cap 0, so the cap check is skipped) and whose
hash seed is 75 receives a CHECKOUT reward of 50 on a 1000-unit transaction,
so rewardValue > 0 — contradicting the claim and the repository's own test
test_new_user_has_zero_cap. -/
theorem newUser_receives_monetary_reward :
    (getPersona envSeed75 st0.cache reqThousand.userId).1.persona = Persona.NEW ∧
    (decide envSeed75 reqThousand st0).1.rewardType = RewardType.CHECKOUT ∧
    (decide envSeed75 reqThousand st0).1.rewardValue = 50 ∧
    0 < (decide envSeed75 reqThousand st0).1.rewardValue := by
  refine ⟨by decide, ?_, ?_, ?_⟩ <;>
    norm_num [decide, decideFresh, getPersona, cacheGet, st0, envSeed75, envDefault,
      reqThousand, defaultPolicyConfig, defaultUserPersona, determineReward,
      determineRewardBase, getDailyCacSpend, isInCooldown, selectReward,
      selectRewardAux, seedOf, ratTrunc, payout, calculateXp, idemKey]

end ClaimC1

end Reward
